import Mathlib

/-!
# Verification of the lilypad solver store and the LilypadPayments contract

This file is a shallow embedding, in Lean 4, of

* the Solidity escrow/settlement contract `LilypadPayments`
  (`agreeResourceProvider`, `agreeJobCreator`, `addResult`, `acceptResult`,
  `challengeResult`, `mediationAcceptResult`, `mediationRejectResult`,
  `timeoutSubmitResults`, `timeoutJudgeResults`, `timeoutMediateResult`); and
* the Go in-memory solver store `SolverStoreMemory`
  (`pkg/solver/store/memory/store.go`).

Machine integers (`uint256`, `int256`) are modelled as `Nat` / `Int` with the
explicit range checks that Solidity 0.8 checked arithmetic performs; a revert
is `Option.none`.  Every settlement entry point returns the ordered list of
token movements and emitted `Payment` events it produces, or `none` when the
call reverts on one of its `require`s / arithmetic checks.  (The token-balance
`require`s inside `_payIn` / `_payOut` depend on the external ERC-20 state and
are not part of the arithmetic of the entry points; the produced `payIn` /
`payOut` actions record exactly which transfers the contract attempts, with
their amounts.)

The Go store is modelled as an explicit state record: one lookup function and
one append-only log per entity kind; each operation returns its Go result
(`Except` for the `error` component) together with the post-state.
-/

set_option maxRecDepth 10000

namespace Lilypad

/-! ## uint256 / int256 arithmetic (Solidity 0.8 checked semantics) -/

/-- The constant `2^256`, the modulus of `uint256`. -/
def UINT256_MOD : Nat := 2 ^ 256

/-- Largest value of `int256`. -/
def INT256_MAX : Int := 2 ^ 255 - 1

/-- Smallest value of `int256`. -/
def INT256_MIN : Int := -(2 ^ 255)

/-- Reinterpretation `int256(x)` for a `uint256` value `x`: two's-complement reinterpretation. -/
def toInt256 (x : Nat) : Int :=
  if x < 2 ^ 255 then (x : Int) else (x : Int) - 2 ^ 256

/-- Reinterpretation `uint256(v)` for an `int256` value `v`: two's-complement reinterpretation.
For `v < 0` this is the huge value `2^256 + v`. -/
def toUint256 (v : Int) : Nat :=
  (v % (2 ^ 256 : Int)).toNat

/-- Checked `int256` subtraction (Solidity 0.8 reverts on overflow). -/
def int256Sub (a b : Int) : Option Int :=
  let r := a - b
  if INT256_MIN ≤ r ∧ r ≤ INT256_MAX then some r else none

/-- Checked `uint256` addition (Solidity 0.8 reverts on overflow). -/
def uint256Add (a b : Nat) : Option Nat :=
  if a + b < UINT256_MOD then some (a + b) else none

/-! ## The LilypadPayments contract -/

/-- Solidity `enum PaymentReason` of the contract. -/
inductive PaymentReason where
  | PaymentCollateral
  | ResultsCollateral
  | TimeoutCollateral
  | JobPayment
  | MediationFee
  deriving DecidableEq

/-- Solidity `enum PaymentDirection` of the contract. -/
inductive PaymentDirection where
  | PaidIn
  | PaidOut
  | Refunded
  | Slashed
  deriving DecidableEq

/-- The `Payment` event: `(dealId, payee, amount, reason, direction)`.
Addresses are modelled as `Nat`. -/
structure Payment where
  dealId : Nat
  payee : Nat
  amount : Nat
  reason : PaymentReason
  direction : PaymentDirection
  deriving DecidableEq

/-- One primitive effect of an entry point, in execution order:
a `_payIn`, a `_payOut`, or an `emit Payment`. -/
inductive Action where
  | payIn (amount : Nat)
  | payOut (payWho : Nat) (amount : Nat)
  | emit (p : Payment)
  deriving DecidableEq

/-- Call context of an external call: `msg.sender`, `tx.origin`, and the
contract's `owner()` (the controller). -/
structure CallCtx where
  sender : Nat
  origin : Nat
  owner : Nat
  deriving DecidableEq

/-- Solidity `function agreeResourceProvider(dealId, resourceProvider, timeoutCollateral)`.
Declared `public` with NO `onlyOwner` modifier; its only guard is
`require(tx.origin == resourceProvider)`.  Pays in the timeout collateral and
emits `(dealId, RP, T, TimeoutCollateral, PaidIn)`. -/
def agreeResourceProvider (ctx : CallCtx) (dealId resourceProvider timeoutCollateral : Nat) :
    Option (List Action) :=
  if ctx.origin = resourceProvider then
    some [.payIn timeoutCollateral,
          .emit ⟨dealId, resourceProvider, timeoutCollateral,
                 .TimeoutCollateral, .PaidIn⟩]
  else none

/-- Solidity `function agreeJobCreator(dealId, jobCreator, paymentCollateral,
timeoutCollateral)`, `onlyOwner`; no check on `tx.origin`.  Pays in
`paymentCollateral + timeoutCollateral` and emits the two PaidIn events. -/
def agreeJobCreator (ctx : CallCtx) (dealId jobCreator paymentCollateral timeoutCollateral : Nat) :
    Option (List Action) :=
  if ctx.sender = ctx.owner then do
    let amount ← uint256Add paymentCollateral timeoutCollateral
    pure [.payIn amount,
          .emit ⟨dealId, jobCreator, paymentCollateral,
                 .PaymentCollateral, .PaidIn⟩,
          .emit ⟨dealId, jobCreator, timeoutCollateral,
                 .TimeoutCollateral, .PaidIn⟩]
  else none

/-- Solidity `function addResult(dealId, resourceProvider, resultsCollateral,
timeoutCollateral)`, `onlyOwner`.
`resultsTimeoutDiff = int256(R) - int256(T)`; if positive `_payIn(diff)`,
if negative `_payOut(RP, uint256(diff))` — note the raw two's-complement cast
of the NEGATIVE value, exactly as the source does.  Then emits the
TimeoutCollateral Refunded and ResultsCollateral PaidIn events. -/
def addResult (ctx : CallCtx) (dealId resourceProvider resultsCollateral timeoutCollateral : Nat) :
    Option (List Action) :=
  if ctx.sender = ctx.owner then do
    let resultsTimeoutDiff ← int256Sub (toInt256 resultsCollateral) (toInt256 timeoutCollateral)
    let moves : List Action :=
      if resultsTimeoutDiff > 0 then [.payIn (toUint256 resultsTimeoutDiff)]
      else if resultsTimeoutDiff < 0 then
        [.payOut resourceProvider (toUint256 resultsTimeoutDiff)]
      else []
    pure (moves ++
      [.emit ⟨dealId, resourceProvider, timeoutCollateral,
              .TimeoutCollateral, .Refunded⟩,
       .emit ⟨dealId, resourceProvider, resultsCollateral,
              .ResultsCollateral, .PaidIn⟩])
  else none

/-- Solidity `function acceptResult(dealId, resourceProvider, jobCreator, jobCost,
paymentCollateral, resultsCollateral, timeoutCollateral)`, `onlyOwner`.
`paymentCollateralRefund = int256(P) - int256(C)`, floored at 0; pays the JC
`refund + T`, emits the PaymentCollateral Refunded event only when the refund
is strictly positive, then the TimeoutCollateral Refunded event; pays the RP
`R + C`, emits ResultsCollateral Refunded and JobPayment PaidOut. -/
def acceptResult (ctx : CallCtx)
    (dealId resourceProvider jobCreator jobCost paymentCollateral resultsCollateral
     timeoutCollateral : Nat) : Option (List Action) :=
  if ctx.sender = ctx.owner then do
    let refund0 ← int256Sub (toInt256 paymentCollateral) (toInt256 jobCost)
    let paymentCollateralRefund : Int := if refund0 < 0 then 0 else refund0
    let jcAmount ← uint256Add (toUint256 paymentCollateralRefund) timeoutCollateral
    let rpAmount ← uint256Add resultsCollateral jobCost
    pure ([Action.payOut jobCreator jcAmount] ++
      (if paymentCollateralRefund > 0 then
        [Action.emit ⟨dealId, jobCreator, toUint256 paymentCollateralRefund,
                      .PaymentCollateral, .Refunded⟩]
       else []) ++
      [.emit ⟨dealId, jobCreator, timeoutCollateral,
              .TimeoutCollateral, .Refunded⟩,
       .payOut resourceProvider rpAmount,
       .emit ⟨dealId, resourceProvider, resultsCollateral,
              .ResultsCollateral, .Refunded⟩,
       .emit ⟨dealId, resourceProvider, jobCost,
              .JobPayment, .PaidOut⟩])
  else none

/-- Solidity `function challengeResult(dealId, resourceProvider, jobCreator,
timeoutCollateral, mediationFee)`, `onlyOwner`.
`timeoutMediationDiff = int256(T) - int256(M)`; if positive `_payIn(diff)`,
if negative `_payOut(resourceProvider, uint256(diff))` — the payee really is
the RESOURCE PROVIDER in the source, and the cast is the raw two's-complement
cast of the negative value.  Then emits the TimeoutCollateral Refunded and
MediationFee PaidIn events, both with the JC as payee. -/
def challengeResult (ctx : CallCtx)
    (dealId resourceProvider jobCreator timeoutCollateral mediationFee : Nat) :
    Option (List Action) :=
  if ctx.sender = ctx.owner then do
    let timeoutMediationDiff ← int256Sub (toInt256 timeoutCollateral) (toInt256 mediationFee)
    let moves : List Action :=
      if timeoutMediationDiff > 0 then [.payIn (toUint256 timeoutMediationDiff)]
      else if timeoutMediationDiff < 0 then
        [.payOut resourceProvider (toUint256 timeoutMediationDiff)]
      else []
    pure (moves ++
      [.emit ⟨dealId, jobCreator, timeoutCollateral,
              .TimeoutCollateral, .Refunded⟩,
       .emit ⟨dealId, jobCreator, mediationFee,
              .MediationFee, .PaidIn⟩])
  else none

/-- Solidity `function mediationAcceptResult(...)`, `onlyOwner`.  Refund of the JC's
residual payment collateral (only when positive), then `R + C` to the RP with
its two events, then the mediation fee to the mediator. -/
def mediationAcceptResult (ctx : CallCtx)
    (dealId resourceProvider jobCreator mediator jobCost paymentCollateral
     resultsCollateral mediationFee : Nat) : Option (List Action) :=
  if ctx.sender = ctx.owner then do
    let refund ← int256Sub (toInt256 paymentCollateral) (toInt256 jobCost)
    let jcPart : List Action :=
      if refund > 0 then
        [.payOut jobCreator (toUint256 refund),
         .emit ⟨dealId, jobCreator, toUint256 refund,
                .PaymentCollateral, .Refunded⟩]
      else []
    let rpAmount ← uint256Add resultsCollateral jobCost
    pure (jcPart ++
      [.payOut resourceProvider rpAmount,
       .emit ⟨dealId, resourceProvider, resultsCollateral,
              .ResultsCollateral, .Refunded⟩,
       .emit ⟨dealId, resourceProvider, jobCost,
              .JobPayment, .PaidOut⟩,
       .payOut mediator mediationFee,
       .emit ⟨dealId, mediator, mediationFee,
              .MediationFee, .PaidOut⟩])
  else none

/-- Solidity `function mediationRejectResult(...)`, `onlyOwner`.  Refunds the JC its
payment collateral, pays the mediator, and emits a Slashed event for the RP's
results collateral. -/
def mediationRejectResult (ctx : CallCtx)
    (dealId resourceProvider jobCreator mediator paymentCollateral resultsCollateral
     mediationFee : Nat) : Option (List Action) :=
  if ctx.sender = ctx.owner then
    some [.payOut jobCreator paymentCollateral,
          .emit ⟨dealId, jobCreator, paymentCollateral,
                 .PaymentCollateral, .Refunded⟩,
          .payOut mediator mediationFee,
          .emit ⟨dealId, mediator, mediationFee,
                 .MediationFee, .PaidOut⟩,
          .emit ⟨dealId, resourceProvider, resultsCollateral,
                 .ResultsCollateral, .Slashed⟩]
  else none

/-- Solidity `function timeoutSubmitResults(dealId, resourceProvider, jobCreator,
paymentCollateral, timeoutCollateral)`, `onlyOwner`.  Refunds the JC its
payment collateral and emits a Slashed event for the RP's timeout
collateral. -/
def timeoutSubmitResults (ctx : CallCtx)
    (dealId resourceProvider jobCreator paymentCollateral timeoutCollateral : Nat) :
    Option (List Action) :=
  if ctx.sender = ctx.owner then
    some [.payOut jobCreator paymentCollateral,
          .emit ⟨dealId, jobCreator, paymentCollateral,
                 .PaymentCollateral, .Refunded⟩,
          .emit ⟨dealId, resourceProvider, timeoutCollateral,
                 .TimeoutCollateral, .Slashed⟩]
  else none

/-- Solidity `function timeoutJudgeResults(dealId, resourceProvider, jobCreator,
resultsCollateral, timeoutCollateral)`, `onlyOwner`.  Pays the RP its results
collateral but emits that refund under reason `PaymentCollateral` (as the
source does), and emits a Slashed event for the JC's timeout collateral.
Nothing at all is emitted or paid for the JC's payment collateral, although
the source's own header comment says `slash the JC's job collateral`. -/
def timeoutJudgeResults (ctx : CallCtx)
    (dealId resourceProvider jobCreator resultsCollateral timeoutCollateral : Nat) :
    Option (List Action) :=
  if ctx.sender = ctx.owner then
    some [.payOut resourceProvider resultsCollateral,
          .emit ⟨dealId, resourceProvider, resultsCollateral,
                 .PaymentCollateral, .Refunded⟩,
          .emit ⟨dealId, jobCreator, timeoutCollateral,
                 .TimeoutCollateral, .Slashed⟩]
  else none

/-- Solidity `function timeoutMediateResult(dealId, resourceProvider, jobCreator,
paymentCollateral, resultsCollateral)`, `onlyOwner`.  Refunds the RP its
results collateral and the JC its payment collateral. -/
def timeoutMediateResult (ctx : CallCtx)
    (dealId resourceProvider jobCreator paymentCollateral resultsCollateral : Nat) :
    Option (List Action) :=
  if ctx.sender = ctx.owner then
    some [.payOut resourceProvider resultsCollateral,
          .payOut jobCreator paymentCollateral,
          .emit ⟨dealId, resourceProvider, resultsCollateral,
                 .ResultsCollateral, .Refunded⟩,
          .emit ⟨dealId, jobCreator, paymentCollateral,
                 .PaymentCollateral, .Refunded⟩]
  else none

/-! ## The Go solver store (`pkg/solver/store/memory/store.go`)

Go maps are modelled as lookup functions `String → Option T`; each JSONL log
is a `List T` of the appended post-images.  A store operation takes the state
and returns the Go `(value, error)` pair — `Except StoreError value` — paired
with the post-state, so that "the store is unchanged" is a plain equation. -/

/-- The Go `error` values the store produces. -/
inductive StoreError where
  /-- Go `fmt.Errorf("that match already exists")` -/
  | conflict
  /-- Go `fmt.Errorf("... not found: %s", id)` -/
  | notFound (id : String)
  deriving DecidableEq

/-- Modelled from the spec: the `data.JobOfferContainer` record of the missing
`pkg/data` package.  `store.go` reads and writes the fields `ID`,
`JobCreator`, `DealID`, `State`; the remaining offer payload (module/spec,
maxPrice, collateral spec, createdAt) is opaque to the store and collapsed
into `payload`. -/
structure JobOfferContainer where
  ID : String
  JobCreator : String
  DealID : String
  State : Nat
  payload : String
  deriving DecidableEq

/-- Modelled from the spec: the `data.ResourceOfferContainer` record, with the
store-visible fields `ID`, `ResourceProvider`, `DealID`, `State` and the rest
of the offer collapsed into `payload`. -/
structure ResourceOfferContainer where
  ID : String
  ResourceProvider : String
  DealID : String
  State : Nat
  payload : String
  deriving DecidableEq

/-- Modelled from the spec: `data.DealTransactionsResourceProvider` — the
named tx hashes the RP has posted; field names as used in `store.go`. -/
structure DealTransactionsResourceProvider where
  Agree : String
  AddResult : String
  TimeoutAgree : String
  TimeoutJudgeResult : String
  TimeoutMediateResult : String
  deriving DecidableEq

/-- Modelled from the spec: `data.DealTransactionsJobCreator`. -/
structure DealTransactionsJobCreator where
  Agree : String
  AcceptResult : String
  CheckResult : String
  TimeoutAgree : String
  TimeoutSubmitResult : String
  TimeoutMediateResult : String
  deriving DecidableEq

/-- Modelled from the spec: `data.DealTransactionsMediator`. -/
structure DealTransactionsMediator where
  MediationAcceptResult : String
  MediationRejectResult : String
  deriving DecidableEq

/-- Modelled from the spec: the three per-party transaction sub-records of a
deal. -/
structure DealTransactions where
  ResourceProvider : DealTransactionsResourceProvider
  JobCreator : DealTransactionsJobCreator
  Mediator : DealTransactionsMediator
  deriving DecidableEq

/-- Modelled from the spec: the deal's collaterals
`{payment, results, timeout, mediationFee}`. -/
structure DealCollaterals where
  payment : Nat
  results : Nat
  timeout : Nat
  mediationFee : Nat
  deriving DecidableEq

/-- Modelled from the spec: the `data.DealContainer` record — id, parties,
mediator, state, collaterals and the per-party transactions. -/
structure DealContainer where
  ID : String
  JobCreator : String
  ResourceProvider : String
  Mediator : String
  State : Nat
  Collaterals : DealCollaterals
  Transactions : DealTransactions
  deriving DecidableEq

/-- Modelled from the spec: the `data.Result` record; keyed by `DealID` in the
store, the rest of the record is opaque to it. -/
structure Result where
  DealID : String
  payload : String
  deriving DecidableEq

/-- The `data.MatchDecision` record as constructed inside
`AddMatchDecision`. -/
structure MatchDecision where
  ResourceOffer : String
  JobOffer : String
  Deal : String
  Result : Bool
  deriving DecidableEq

/-- A Go map, as a lookup function. -/
def StrMap (T : Type) : Type := String → Option T

/-- The empty map. -/
def StrMap.empty {T : Type} : StrMap T := fun _ => none

/-- Update `m[k] = v` — pointwise map update. -/
def StrMap.insert {T : Type} (m : StrMap T) (k : String) (v : T) : StrMap T :=
  fun q => if q = k then some v else m q

/-- Go `delete(m, k)`. -/
def StrMap.erase {T : Type} (m : StrMap T) (k : String) : StrMap T :=
  fun q => if q = k then none else m q

/-- The in-memory state of `SolverStoreMemory`: one map and one append-only
JSONL log per entity kind (the `logWriters` side of the Go struct is the five
`…Log` lists: `Write` appends one post-image line). -/
structure SolverStoreMemory where
  jobOfferMap : StrMap JobOfferContainer
  resourceOfferMap : StrMap ResourceOfferContainer
  dealMap : StrMap DealContainer
  resultMap : StrMap Result
  matchDecisionMap : StrMap MatchDecision
  jobOfferLog : List JobOfferContainer
  resourceOfferLog : List ResourceOfferContainer
  dealLog : List DealContainer
  resultLog : List Result
  decisionLog : List MatchDecision

/-- Go `func getMatchID(resourceOffer, jobOffer string) string` —
`fmt.Sprintf("%s-%s", resourceOffer, jobOffer)`. -/
def getMatchID (resourceOffer jobOffer : String) : String :=
  resourceOffer ++ "-" ++ jobOffer

/-- Go `loadJSONLMap`: fold the parsed log lines left-to-right into a map keyed
by `getID`, later lines overwriting earlier ones. -/
def loadJSONLMap {T : Type} (getID : T → String) (records : List T) : StrMap T :=
  records.foldl (fun m r => m.insert (getID r) r) StrMap.empty

/-- Go `NewSolverStoreMemory`, as a function of the five parsed logs: every map
is rebuilt by `loadJSONLMap` with the key function the source passes. -/
def NewSolverStoreMemory (jobOffers : List JobOfferContainer)
    (resourceOffers : List ResourceOfferContainer) (deals : List DealContainer)
    (results : List Result) (decisions : List MatchDecision) : SolverStoreMemory where
  jobOfferMap := loadJSONLMap (fun jobOffer => jobOffer.ID) jobOffers
  resourceOfferMap := loadJSONLMap (fun resourceOffer => resourceOffer.ID) resourceOffers
  dealMap := loadJSONLMap (fun deal => deal.ID) deals
  resultMap := loadJSONLMap (fun result => result.DealID) results
  matchDecisionMap := loadJSONLMap
    (fun decision => getMatchID decision.ResourceOffer decision.JobOffer) decisions
  jobOfferLog := jobOffers
  resourceOfferLog := resourceOffers
  dealLog := deals
  resultLog := results
  decisionLog := decisions

/-- Go `AddJobOffer`: insert (overwriting) and append the post-image. -/
def AddJobOffer (s : SolverStoreMemory) (jobOffer : JobOfferContainer) :
    Except StoreError JobOfferContainer × SolverStoreMemory :=
  (.ok jobOffer,
   { s with jobOfferMap := s.jobOfferMap.insert jobOffer.ID jobOffer
            jobOfferLog := s.jobOfferLog ++ [jobOffer] })

/-- Go `AddResourceOffer`: insert (overwriting) and append the post-image. -/
def AddResourceOffer (s : SolverStoreMemory) (resourceOffer : ResourceOfferContainer) :
    Except StoreError ResourceOfferContainer × SolverStoreMemory :=
  (.ok resourceOffer,
   { s with resourceOfferMap := s.resourceOfferMap.insert resourceOffer.ID resourceOffer
            resourceOfferLog := s.resourceOfferLog ++ [resourceOffer] })

/-- Go `AddDeal`: insert (overwriting) and append the post-image. -/
def AddDeal (s : SolverStoreMemory) (deal : DealContainer) :
    Except StoreError DealContainer × SolverStoreMemory :=
  (.ok deal,
   { s with dealMap := s.dealMap.insert deal.ID deal
            dealLog := s.dealLog ++ [deal] })

/-- Go `AddResult`: insert (overwriting, keyed by `DealID`) and append the
post-image. -/
def AddResult (s : SolverStoreMemory) (result : Result) :
    Except StoreError Result × SolverStoreMemory :=
  (.ok result,
   { s with resultMap := s.resultMap.insert result.DealID result
            resultLog := s.resultLog ++ [result] })

/-- Go `AddMatchDecision`: conflict when the `getMatchID` key is already present;
otherwise build the decision record, insert it and append it to the log. -/
def AddMatchDecision (s : SolverStoreMemory)
    (resourceOffer jobOffer deal : String) (result : Bool) :
    Except StoreError MatchDecision × SolverStoreMemory :=
  let id := getMatchID resourceOffer jobOffer
  match s.matchDecisionMap id with
  | some _ => (.error .conflict, s)
  | none =>
    let decision : MatchDecision :=
      { ResourceOffer := resourceOffer, JobOffer := jobOffer
        Deal := deal, Result := result }
    (.ok decision,
     { s with matchDecisionMap := s.matchDecisionMap.insert id decision
              decisionLog := s.decisionLog ++ [decision] })

/-- Go `UpdateJobOfferState(id, dealID, state)`: not-found error when absent;
otherwise overwrite `DealID` and `State` unconditionally, store and append. -/
def UpdateJobOfferState (s : SolverStoreMemory) (id dealID : String) (state : Nat) :
    Except StoreError JobOfferContainer × SolverStoreMemory :=
  match s.jobOfferMap id with
  | none => (.error (.notFound id), s)
  | some jobOffer =>
    let jobOffer2 := { jobOffer with DealID := dealID, State := state }
    (.ok jobOffer2,
     { s with jobOfferMap := s.jobOfferMap.insert id jobOffer2
              jobOfferLog := s.jobOfferLog ++ [jobOffer2] })

/-- Go `UpdateResourceOfferState(id, dealID, state)`: not-found error when
absent; otherwise overwrite `DealID` and `State` unconditionally, store and
append. -/
def UpdateResourceOfferState (s : SolverStoreMemory) (id dealID : String) (state : Nat) :
    Except StoreError ResourceOfferContainer × SolverStoreMemory :=
  match s.resourceOfferMap id with
  | none => (.error (.notFound id), s)
  | some resourceOffer =>
    let resourceOffer2 := { resourceOffer with DealID := dealID, State := state }
    (.ok resourceOffer2,
     { s with resourceOfferMap := s.resourceOfferMap.insert id resourceOffer2
              resourceOfferLog := s.resourceOfferLog ++ [resourceOffer2] })

/-- The field-merge of `UpdateDealTransactionsResourceProvider`: each `if
data.X != "" { txs.X = data.X }` of the source. -/
def mergeTransactionsResourceProvider (txs d : DealTransactionsResourceProvider) :
    DealTransactionsResourceProvider where
  Agree := if d.Agree ≠ "" then d.Agree else txs.Agree
  AddResult := if d.AddResult ≠ "" then d.AddResult else txs.AddResult
  TimeoutAgree := if d.TimeoutAgree ≠ "" then d.TimeoutAgree else txs.TimeoutAgree
  TimeoutJudgeResult :=
    if d.TimeoutJudgeResult ≠ "" then d.TimeoutJudgeResult else txs.TimeoutJudgeResult
  TimeoutMediateResult :=
    if d.TimeoutMediateResult ≠ "" then d.TimeoutMediateResult else txs.TimeoutMediateResult

/-- The field-merge of `UpdateDealTransactionsJobCreator`. -/
def mergeTransactionsJobCreator (txs d : DealTransactionsJobCreator) :
    DealTransactionsJobCreator where
  Agree := if d.Agree ≠ "" then d.Agree else txs.Agree
  AcceptResult := if d.AcceptResult ≠ "" then d.AcceptResult else txs.AcceptResult
  CheckResult := if d.CheckResult ≠ "" then d.CheckResult else txs.CheckResult
  TimeoutAgree := if d.TimeoutAgree ≠ "" then d.TimeoutAgree else txs.TimeoutAgree
  TimeoutSubmitResult :=
    if d.TimeoutSubmitResult ≠ "" then d.TimeoutSubmitResult else txs.TimeoutSubmitResult
  TimeoutMediateResult :=
    if d.TimeoutMediateResult ≠ "" then d.TimeoutMediateResult else txs.TimeoutMediateResult

/-- The field-merge of `UpdateDealTransactionsMediator`. -/
def mergeTransactionsMediator (txs d : DealTransactionsMediator) :
    DealTransactionsMediator where
  MediationAcceptResult :=
    if d.MediationAcceptResult ≠ "" then d.MediationAcceptResult else txs.MediationAcceptResult
  MediationRejectResult :=
    if d.MediationRejectResult ≠ "" then d.MediationRejectResult else txs.MediationRejectResult

/-- Go `UpdateDealTransactionsResourceProvider(id, data)`: not-found when the
deal is absent; otherwise merge the non-empty fields into
`deal.Transactions.ResourceProvider`, store and append the post-image. -/
def UpdateDealTransactionsResourceProvider (s : SolverStoreMemory) (id : String)
    (d : DealTransactionsResourceProvider) :
    Except StoreError DealContainer × SolverStoreMemory :=
  match s.dealMap id with
  | none => (.error (.notFound id), s)
  | some deal =>
    let deal2 := { deal with Transactions :=
      { deal.Transactions with ResourceProvider :=
          mergeTransactionsResourceProvider deal.Transactions.ResourceProvider d } }
    (.ok deal2,
     { s with dealMap := s.dealMap.insert id deal2
              dealLog := s.dealLog ++ [deal2] })

/-- Go `UpdateDealTransactionsJobCreator(id, data)`. -/
def UpdateDealTransactionsJobCreator (s : SolverStoreMemory) (id : String)
    (d : DealTransactionsJobCreator) :
    Except StoreError DealContainer × SolverStoreMemory :=
  match s.dealMap id with
  | none => (.error (.notFound id), s)
  | some deal =>
    let deal2 := { deal with Transactions :=
      { deal.Transactions with JobCreator :=
          mergeTransactionsJobCreator deal.Transactions.JobCreator d } }
    (.ok deal2,
     { s with dealMap := s.dealMap.insert id deal2
              dealLog := s.dealLog ++ [deal2] })

/-- Go `UpdateDealTransactionsMediator(id, data)`. -/
def UpdateDealTransactionsMediator (s : SolverStoreMemory) (id : String)
    (d : DealTransactionsMediator) :
    Except StoreError DealContainer × SolverStoreMemory :=
  match s.dealMap id with
  | none => (.error (.notFound id), s)
  | some deal =>
    let deal2 := { deal with Transactions :=
      { deal.Transactions with Mediator :=
          mergeTransactionsMediator deal.Transactions.Mediator d } }
    (.ok deal2,
     { s with dealMap := s.dealMap.insert id deal2
              dealLog := s.dealLog ++ [deal2] })

/-- Go `RemoveJobOffer(id)`: delete from the in-memory map only; nothing is
appended to any log. -/
def RemoveJobOffer (s : SolverStoreMemory) (id : String) :
    Except StoreError Unit × SolverStoreMemory :=
  (.ok (), { s with jobOfferMap := s.jobOfferMap.erase id })

/-- Go `RemoveResourceOffer(id)`: delete from the in-memory map only; nothing is
appended to any log. -/
def RemoveResourceOffer (s : SolverStoreMemory) (id : String) :
    Except StoreError Unit × SolverStoreMemory :=
  (.ok (), { s with resourceOfferMap := s.resourceOfferMap.erase id })

/-! ## Event bookkeeping for the settlement flows -/

/-- The Payment event carried by an action, if any. -/
def Action.eventOf : Action → Option Payment
  | .emit p => some p
  | _ => none

/-- All Payment events emitted along a list of actions, in order. -/
def eventsOf (as : List Action) : List Payment :=
  as.filterMap Action.eventOf

/-- Total amount the Payment events record as paid into escrow
(direction PaidIn). -/
def sumPaidIn (es : List Payment) : Nat :=
  (es.map fun e => if e.direction = PaymentDirection.PaidIn then e.amount else 0).sum

/-- Total amount the Payment events record as leaving the locked balance:
directions PaidOut, Refunded and Slashed. -/
def sumMatchedOut (es : List Payment) : Nat :=
  (es.map fun e => if e.direction = PaymentDirection.PaidIn then 0 else e.amount).sum

/-- The balance property claimed of every terminal path: every amount paid in
is matched by a Refunded / PaidOut / Slashed emission and no credited amount
vanishes — the PaidIn total equals the Refunded + PaidOut + Slashed total. -/
def eventsBalance (es : List Payment) : Bool :=
  sumPaidIn es == sumMatchedOut es

/-- The timeout-judge-results terminal path of the transition table:
`agreeResourceProvider`, `agreeJobCreator`, `addResult`, then
`timeoutJudgeResults`, each call sent by the controller (`owner`) with the
acting party as `tx.origin`. -/
def timeoutJudgeResultsPath (owner rp jc dealId paymentCollateral resultsCollateral
    timeoutCollateral : Nat) : Option (List Action) := do
  let a1 ← agreeResourceProvider ⟨owner, rp, owner⟩ dealId rp timeoutCollateral
  let a2 ← agreeJobCreator ⟨owner, jc, owner⟩ dealId jc paymentCollateral timeoutCollateral
  let a3 ← addResult ⟨owner, rp, owner⟩ dealId rp resultsCollateral timeoutCollateral
  let a4 ← timeoutJudgeResults ⟨owner, jc, owner⟩ dealId rp jc resultsCollateral
    timeoutCollateral
  pure (a1 ++ a2 ++ a3 ++ a4)

/-! ## Store scenario constants and replay helpers -/

/-- A freshly created store with no prior logs. -/
def emptyStore : SolverStoreMemory where
  jobOfferMap := StrMap.empty
  resourceOfferMap := StrMap.empty
  dealMap := StrMap.empty
  resultMap := StrMap.empty
  matchDecisionMap := StrMap.empty
  jobOfferLog := []
  resourceOfferLog := []
  dealLog := []
  resultLog := []
  decisionLog := []

/-- Written to the spec's words: the record of the last appended log line
whose primary key (by `getID`) is `k`, or `none` when no line has that key.
This is the specification-side description that the replayed fold is compared
against. -/
def lastWrite {T : Type} (getID : T → String) (k : String) : List T → Option T
  | [] => none
  | r :: rest =>
    match lastWrite getID k rest with
    | some x => some x
    | none => if getID r = k then some r else none

/-- Restart: the store rebuilt by `NewSolverStoreMemory` from the five logs
the running store has appended. -/
def rebuildStore (s : SolverStoreMemory) : SolverStoreMemory :=
  NewSolverStoreMemory s.jobOfferLog s.resourceOfferLog s.dealLog s.resultLog s.decisionLog

/-- First call of the match-id collision scenario: record a decision for the
pair `("a-b", "c")`. -/
def collisionCall1 : Except StoreError MatchDecision × SolverStoreMemory :=
  AddMatchDecision emptyStore "a-b" "c" "d1" true

/-- The store after the first collision-scenario call. -/
def collisionStore : SolverStoreMemory := collisionCall1.2

/-- Second call of the match-id collision scenario: the DISTINCT pair
`("a", "b-c")`, whose `getMatchID` string is the same `"a-b-c"`. -/
def collisionCall2 : Except StoreError MatchDecision × SolverStoreMemory :=
  AddMatchDecision collisionStore "a" "b-c" "d2" true

/-- A concrete deal used to instantiate the update-transactions theorem. -/
def dealExample : DealContainer :=
  ⟨"d1", "jc1", "rp1", "", 1, ⟨100, 30, 5, 8⟩,
   ⟨⟨"a0", "b0", "c0", "d0", "e0"⟩, ⟨"f0", "g0", "h0", "i0", "j0", "k0"⟩, ⟨"l0", "m0"⟩⟩⟩

/-- The deal of `dealExample` after merging the RP-transactions argument
whose only non-empty field is `AddResult = "addTx"`. -/
def dealExampleMergedRP : DealContainer :=
  { dealExample with Transactions :=
      { dealExample.Transactions with ResourceProvider := ⟨"a0", "addTx", "c0", "d0", "e0"⟩ } }

/-- A concrete job offer, already matched to deal `"dOld"`. -/
def jobOfferExample : JobOfferContainer := ⟨"j1", "alice", "dOld", 1, "x"⟩

/-- The job offer of `jobOfferExample` after an update with empty deal id and
state 3. -/
def jobOfferExampleUpdated : JobOfferContainer := ⟨"j1", "alice", "", 3, "x"⟩

/-- A concrete resource offer, already matched to deal `"dOld"`. -/
def resourceOfferExample : ResourceOfferContainer := ⟨"r1", "bob", "dOld", 1, "y"⟩

/-- The resource offer of `resourceOfferExample` after an update with empty
deal id and state 3. -/
def resourceOfferExampleUpdated : ResourceOfferContainer := ⟨"r1", "bob", "", 3, "y"⟩

/-! ## Helper lemmas -/

theorem toInt256_of_lt {x : Nat} (h : x < 2 ^ 255) : toInt256 x = (x : Int) := by
  unfold toInt256
  rw [if_pos h]

theorem int256Sub_toInt256 {a b : Nat} (ha : a < 2 ^ 255) (hb : b < 2 ^ 255) :
    int256Sub (toInt256 a) (toInt256 b) = some ((a : Int) - b) := by
  rw [toInt256_of_lt ha, toInt256_of_lt hb]
  simp only [int256Sub, INT256_MIN, INT256_MAX]
  split
  · rfl
  · next h => exact absurd ⟨by omega, by omega⟩ h

theorem toUint256_ofNat {n : Nat} (h : n < 2 ^ 256) : toUint256 (n : Int) = n := by
  unfold toUint256
  rw [Int.emod_eq_of_lt (Int.natCast_nonneg n) (by exact_mod_cast h)]
  exact Int.toNat_natCast n

theorem uint256Add_of_lt {a b : Nat} (h : a + b < 2 ^ 256) :
    uint256Add a b = some (a + b) := by
  unfold uint256Add UINT256_MOD
  rw [if_pos h]

theorem foldl_insert_lookup {T : Type} (getID : T → String) (k : String)
    (records : List T) (m : StrMap T) :
    records.foldl (fun acc r => acc.insert (getID r) r) m k =
      (match lastWrite getID k records with
       | some x => some x
       | none => m k) := by
  induction records generalizing m with
  | nil => rfl
  | cons r rest ih =>
    simp only [List.foldl_cons, lastWrite]
    rw [ih]
    cases lastWrite getID k rest with
    | some x => rfl
    | none =>
      simp only [StrMap.insert]
      by_cases h : getID r = k
      · simp [h]
      · simp [h, Ne.symm h]

theorem loadJSONLMap_lookup {T : Type} (getID : T → String) (records : List T)
    (k : String) : loadJSONLMap getID records k = lastWrite getID k records := by
  simp only [loadJSONLMap]
  rw [foldl_insert_lookup]
  cases lastWrite getID k records <;> rfl

theorem lastWrite_append_single {T : Type} (getID : T → String) (k : String)
    (l : List T) (r : T) :
    lastWrite getID k (l ++ [r]) =
      if getID r = k then some r else lastWrite getID k l := by
  induction l with
  | nil => by_cases h : getID r = k <;> simp [lastWrite, h]
  | cons a l ih =>
    simp only [List.cons_append, lastWrite, List.append_eq]
    rw [ih]
    by_cases h : getID r = k <;> simp [h]

/-! ## Claim theorems -/

/-- C6: for every sequence of parsed log lines of each of the five entity
kinds, the in-memory map `NewSolverStoreMemory` rebuilds at startup agrees,
at every key, with the last appended line for that key (left-to-right replay,
last write wins; keys are the same key functions the source passes to
`loadJSONLMap`). -/
theorem replay_is_last_write_wins (jobOffers : List JobOfferContainer)
    (resourceOffers : List ResourceOfferContainer) (deals : List DealContainer)
    (results : List Result) (decisions : List MatchDecision) (k : String) :
    (NewSolverStoreMemory jobOffers resourceOffers deals results decisions).jobOfferMap k =
        lastWrite (fun jobOffer => jobOffer.ID) k jobOffers ∧
    (NewSolverStoreMemory jobOffers resourceOffers deals results decisions).resourceOfferMap k =
        lastWrite (fun resourceOffer => resourceOffer.ID) k resourceOffers ∧
    (NewSolverStoreMemory jobOffers resourceOffers deals results decisions).dealMap k =
        lastWrite (fun deal => deal.ID) k deals ∧
    (NewSolverStoreMemory jobOffers resourceOffers deals results decisions).resultMap k =
        lastWrite (fun result => result.DealID) k results ∧
    (NewSolverStoreMemory jobOffers resourceOffers deals results decisions).matchDecisionMap k =
        lastWrite (fun decision => getMatchID decision.ResourceOffer decision.JobOffer) k
          decisions :=
  ⟨loadJSONLMap_lookup _ _ _, loadJSONLMap_lookup _ _ _, loadJSONLMap_lookup _ _ _,
   loadJSONLMap_lookup _ _ _, loadJSONLMap_lookup _ _ _⟩

/-- C8: `RemoveJobOffer` / `RemoveResourceOffer` delete only the in-memory
record — none of the five logs changes — and therefore an offer that was
added and then removed is present again in the store rebuilt by replaying the
log: the removal does not survive a restart. -/
theorem remove_not_logged_and_replay_resurrects (s : SolverStoreMemory) (id : String)
    (jobOffer : JobOfferContainer) (resourceOffer : ResourceOfferContainer) :
    (RemoveJobOffer s id).2.jobOfferLog = s.jobOfferLog ∧
    (RemoveJobOffer s id).2.resourceOfferLog = s.resourceOfferLog ∧
    (RemoveJobOffer s id).2.dealLog = s.dealLog ∧
    (RemoveJobOffer s id).2.resultLog = s.resultLog ∧
    (RemoveJobOffer s id).2.decisionLog = s.decisionLog ∧
    (RemoveResourceOffer s id).2.jobOfferLog = s.jobOfferLog ∧
    (RemoveResourceOffer s id).2.resourceOfferLog = s.resourceOfferLog ∧
    (RemoveResourceOffer s id).2.dealLog = s.dealLog ∧
    (RemoveResourceOffer s id).2.resultLog = s.resultLog ∧
    (RemoveResourceOffer s id).2.decisionLog = s.decisionLog ∧
    (RemoveJobOffer (AddJobOffer s jobOffer).2 jobOffer.ID).2.jobOfferMap jobOffer.ID =
      none ∧
    (rebuildStore (RemoveJobOffer (AddJobOffer s jobOffer).2 jobOffer.ID).2).jobOfferMap
      jobOffer.ID = some jobOffer ∧
    (RemoveResourceOffer (AddResourceOffer s resourceOffer).2
      resourceOffer.ID).2.resourceOfferMap resourceOffer.ID = none ∧
    (rebuildStore (RemoveResourceOffer (AddResourceOffer s resourceOffer).2
      resourceOffer.ID).2).resourceOfferMap resourceOffer.ID = some resourceOffer := by
  refine ⟨rfl, rfl, rfl, rfl, rfl, rfl, rfl, rfl, rfl, rfl, ?_, ?_, ?_, ?_⟩
  · simp [RemoveJobOffer, StrMap.erase]
  · show loadJSONLMap _ (s.jobOfferLog ++ [jobOffer]) jobOffer.ID = some jobOffer
    rw [loadJSONLMap_lookup, lastWrite_append_single]
    simp
  · simp [RemoveResourceOffer, StrMap.erase]
  · show loadJSONLMap _ (s.resourceOfferLog ++ [resourceOffer]) resourceOffer.ID =
      some resourceOffer
    rw [loadJSONLMap_lookup, lastWrite_append_single]
    simp

/-- C1: the Payment events of a terminal path do NOT balance.  Along the
timeout-judge-results path with paymentCollateral 100, resultsCollateral 30
and timeoutCollateral 5 (controller address 0, RP 1, JC 2, deal 7), the
events pay in 5 + 100 + 5 + 30 = 140 but only 5 + 30 + 5 = 40 ever leaves as
Refunded / PaidOut / Slashed: the JC's payment collateral of 100 is credited
and then vanishes with no matching emission (and no Slashed event covers it),
contradicting the claimed invariant.  (The source's own header comment on
`timeoutJudgeResults` says `slash the JC's job collateral`, but the function
neither slashes nor refunds it; it also emits the results-collateral refund
under reason `PaymentCollateral`.) -/
theorem timeoutJudgeResultsPath_events_unbalanced :
    ((timeoutJudgeResultsPath 0 1 2 7 100 30 5).map fun as =>
      (eventsBalance (eventsOf as), sumPaidIn (eventsOf as), sumMatchedOut (eventsOf as))) =
      some (false, 140, 40) := by decide

/-- C2: the `addResult` settlement does NOT pay out `max(0, T−R)` when
`T > R`.  With resultsCollateral 2 and timeoutCollateral 5 the difference is
`-3`, and the source passes `uint256(-3) = 2^256 - 3` to `_payOut`, not
`max(0, 5-2) = 3`.  The two events are emitted in the claimed order and
shape; only the pay-out amount diverges. -/
theorem addResult_payout_is_wrapped_negative :
    addResult ⟨3, 1, 3⟩ 7 1 2 5 =
      some [.payOut 1 (2 ^ 256 - 3),
            .emit ⟨7, 1, 5, .TimeoutCollateral, .Refunded⟩,
            .emit ⟨7, 1, 2, .ResultsCollateral, .PaidIn⟩] ∧
    (2 ^ 256 - 3 : Nat) ≠ 5 - 2 := by decide

/-- C3: the `challengeResult` settlement moves the `T`/`M` difference in the
WRONG direction and, when it pays out, pays the WRONG party.  With
timeoutCollateral 5 and mediationFee 8 (RP address 1, JC address 2) the claim
demands `max(0, M−T) = 3` paid in from the JC; the code instead executes
`_payOut(resourceProvider, uint256(5-8)) = _payOut(1, 2^256 - 3)` — a pay-out
to the resource provider, not the job creator.  With timeoutCollateral 5 and
mediationFee 2 the claim demands `max(0, T−M) = 3` paid OUT to the JC; the
code instead pays 3 IN.  The two events are emitted as claimed. -/
theorem challengeResult_wrong_party_and_direction :
    challengeResult ⟨3, 9, 3⟩ 7 1 2 5 8 =
      some [.payOut 1 (2 ^ 256 - 3),
            .emit ⟨7, 2, 5, .TimeoutCollateral, .Refunded⟩,
            .emit ⟨7, 2, 8, .MediationFee, .PaidIn⟩] ∧
    (1 : Nat) ≠ 2 ∧
    challengeResult ⟨3, 9, 3⟩ 7 1 2 5 2 =
      some [.payIn 3,
            .emit ⟨7, 2, 5, .TimeoutCollateral, .Refunded⟩,
            .emit ⟨7, 2, 2, .MediationFee, .PaidIn⟩] := by decide

/-- C7: the entry-point guards are NOT as claimed.  `agreeResourceProvider`
carries no `onlyOwner` modifier: a call whose `msg.sender` 5 differs from the
owner 3 still executes and emits a Payment event (its only guard is
`tx.origin == resourceProvider`).  `agreeJobCreator` carries `onlyOwner` but
never checks the acting party: a call by the owner whose `tx.origin` 9
differs from the job creator 2 still executes.  (The contract's own comment
above these handlers says "hence they are all onlyOwner".) -/
theorem agree_entry_points_missing_guards :
    agreeResourceProvider ⟨5, 1, 3⟩ 7 1 10 =
      some [.payIn 10, .emit ⟨7, 1, 10, .TimeoutCollateral, .PaidIn⟩] ∧
    (5 : Nat) ≠ 3 ∧
    agreeJobCreator ⟨3, 9, 3⟩ 7 2 100 5 =
      some [.payIn 105,
            .emit ⟨7, 2, 100, .PaymentCollateral, .PaidIn⟩,
            .emit ⟨7, 2, 5, .TimeoutCollateral, .PaidIn⟩] ∧
    (9 : Nat) ≠ 2 := by decide

/-- C4: the `acceptResult` settlement, for any owner-sent call whose values
fit the checked arithmetic (`P`, `C` in `int256` range, the two pay-out sums
below `2^256`), pays the job creator exactly `max(0, P−C) + T` (as the
truncated subtraction `P - C + T`), pays the resource provider exactly
`R + C`, emits the PaymentCollateral Refunded event of `P − C` only when
`C < P`, then the TimeoutCollateral Refunded event of `T` to the JC, the
ResultsCollateral Refunded event of `R` to the RP and the JobPayment PaidOut
event of `C` to the RP — and the JC's payment-collateral refund `P - C`
never exceeds `P`, even when `C > P`. -/
theorem acceptResult_flows (ctx : CallCtx) (dealId rp jc C P R T : Nat)
    (hown : ctx.sender = ctx.owner) (hP : P < 2 ^ 255) (hC : C < 2 ^ 255)
    (hjcAmount : P - C + T < 2 ^ 256) (hrpAmount : R + C < 2 ^ 256) :
    acceptResult ctx dealId rp jc C P R T =
      some ([Action.payOut jc (P - C + T)] ++
        (if C < P then
          [Action.emit ⟨dealId, jc, P - C, .PaymentCollateral, .Refunded⟩]
         else []) ++
        [.emit ⟨dealId, jc, T, .TimeoutCollateral, .Refunded⟩,
         .payOut rp (R + C),
         .emit ⟨dealId, rp, R, .ResultsCollateral, .Refunded⟩,
         .emit ⟨dealId, rp, C, .JobPayment, .PaidOut⟩]) ∧
    P - C ≤ P := by
  refine ⟨?_, Nat.sub_le P C⟩
  unfold acceptResult
  rw [if_pos hown, int256Sub_toInt256 hP hC]
  simp only [Option.bind_eq_bind', Option.some_bind']
  rcases Nat.lt_or_ge P C with hPC | hPC
  · have h0 : ((P : Int) - C < 0) := by omega
    rw [if_pos h0]
    have hz : toUint256 (0 : Int) = 0 := by decide
    rw [hz]
    rw [uint256Add_of_lt (show 0 + T < 2 ^ 256 by omega)]
    simp only [Option.bind_eq_bind', Option.some_bind']
    rw [uint256Add_of_lt hrpAmount]
    simp only [Option.bind_eq_bind', Option.some_bind', Option.pure_def]
    have hPC0 : P - C = 0 := by omega
    rw [hPC0]
    simp [show ¬ ((0 : Int) > 0) from by omega, show ¬ (C < P) from by omega]
  · have h0 : ¬ ((P : Int) - C < 0) := by omega
    rw [if_neg h0]
    have hsub : toUint256 ((P : Int) - C) = P - C := by
      have he : ((P : Int) - C) = ((P - C : Nat) : Int) := by omega
      rw [he, toUint256_ofNat (by omega)]
    rw [hsub, uint256Add_of_lt hjcAmount]
    simp only [Option.bind_eq_bind', Option.some_bind']
    rw [uint256Add_of_lt hrpAmount]
    simp only [Option.bind_eq_bind', Option.some_bind', Option.pure_def]
    simp only [show ((P : Int) - C > 0) ↔ C < P from by omega]

/-- Witness for C4: the spec's happy-path numbers — jobCost 20, payment
collateral 100, results collateral 30, timeout collateral 5 — instantiate
`acceptResult_flows` with every hypothesis discharged concretely. -/
theorem acceptResult_flows_witness :
    ((⟨0, 9, 0⟩ : CallCtx).sender = (⟨0, 9, 0⟩ : CallCtx).owner ∧
     (100 : Nat) < 2 ^ 255 ∧ (20 : Nat) < 2 ^ 255 ∧
     (100 - 20 + 5 : Nat) < 2 ^ 256 ∧ (30 + 20 : Nat) < 2 ^ 256) ∧
    (acceptResult ⟨0, 9, 0⟩ 7 1 2 20 100 30 5 =
      some ([Action.payOut 2 (100 - 20 + 5)] ++
        (if 20 < 100 then
          [Action.emit ⟨7, 2, 100 - 20, .PaymentCollateral, .Refunded⟩]
         else []) ++
        [.emit ⟨7, 2, 5, .TimeoutCollateral, .Refunded⟩,
         .payOut 1 (30 + 20),
         .emit ⟨7, 1, 30, .ResultsCollateral, .Refunded⟩,
         .emit ⟨7, 1, 20, .JobPayment, .PaidOut⟩]) ∧
     100 - 20 ≤ 100) :=
  ⟨⟨rfl, by decide, by decide, by decide, by decide⟩,
   acceptResult_flows ⟨0, 9, 0⟩ 7 1 2 20 100 30 5 rfl (by decide) (by decide)
     (by decide) (by decide)⟩

/-- C5 counterexample: `getMatchID` concatenates the two offer ids with a
`"-"`, so the two DISTINCT pairs `("a-b", "c")` and `("a", "b-c")` share the
key `"a-b-c"`.  Recording a decision for the first pair makes the second call
return Conflict although no decision for the pair `("a", "b-c")` exists in
the store (its single stored decision is for resource offer `"a-b"`, not
`"a"`) — refuting both the claimed iff and the claimed non-interference of
distinct pairs.  (On Conflict the store is indeed unchanged.) -/
theorem addMatchDecision_distinct_pairs_collide :
    collisionCall1.1 = .ok ⟨"a-b", "c", "d1", true⟩ ∧
    collisionStore.decisionLog = [⟨"a-b", "c", "d1", true⟩] ∧
    collisionCall2.1 = .error .conflict ∧
    collisionCall2.2 = collisionStore ∧
    (("a-b", "c") : String × String) ≠ ("a", "b-c") ∧
    ("a-b" : String) ≠ "a" :=
  ⟨rfl, rfl, rfl, rfl, by decide, by decide⟩

/-- C5 (amended): `AddMatchDecision` returns Conflict exactly when the store
already holds an entry under the same `getMatchID` string
`roId ++ "-" ++ joId` (distinct pairs may collide on this key); on Conflict
the store is unchanged; otherwise the decision record is inserted under that
key and appended to the decisions log; and a recorded decision never affects
the entry at any other `getMatchID` key. -/
theorem addMatchDecision_conflict_iff_matchID (s : SolverStoreMemory)
    (ro jo deal : String) (result : Bool) :
    ((AddMatchDecision s ro jo deal result).1 = .error .conflict ↔
      (s.matchDecisionMap (getMatchID ro jo)).isSome = true) ∧
    ((s.matchDecisionMap (getMatchID ro jo)).isSome = true →
      (AddMatchDecision s ro jo deal result).2 = s) ∧
    (s.matchDecisionMap (getMatchID ro jo) = none →
      AddMatchDecision s ro jo deal result =
        (.ok ⟨ro, jo, deal, result⟩,
         { s with
           matchDecisionMap :=
             StrMap.insert s.matchDecisionMap (getMatchID ro jo) ⟨ro, jo, deal, result⟩
           decisionLog := s.decisionLog ++ [⟨ro, jo, deal, result⟩] })) ∧
    (∀ ro2 jo2 : String, getMatchID ro2 jo2 ≠ getMatchID ro jo →
      (AddMatchDecision s ro jo deal result).2.matchDecisionMap (getMatchID ro2 jo2) =
        s.matchDecisionMap (getMatchID ro2 jo2)) := by
  rcases hm : s.matchDecisionMap (getMatchID ro jo) with _ | d <;>
    simp only [AddMatchDecision, hm]
  · refine ⟨by simp, by simp, fun _ => trivial, fun ro2 jo2 hne => ?_⟩
    simp [StrMap.insert, hne]
  · exact ⟨by simp, fun _ => trivial, by simp, fun _ _ _ => trivial⟩

/-- Witness for C5's amended theorem: on the empty store, recording the pair
`("r1", "j1")` hits the no-conflict branch and performs the insert and the
log append. -/
theorem addMatchDecision_conflict_iff_matchID_witness :
    emptyStore.matchDecisionMap (getMatchID "r1" "j1") = none ∧
    AddMatchDecision emptyStore "r1" "j1" "deal1" true =
      (.ok ⟨"r1", "j1", "deal1", true⟩,
       { emptyStore with
         matchDecisionMap :=
           StrMap.insert emptyStore.matchDecisionMap (getMatchID "r1" "j1")
             ⟨"r1", "j1", "deal1", true⟩
         decisionLog := emptyStore.decisionLog ++ [⟨"r1", "j1", "deal1", true⟩] }) :=
  ⟨rfl,
   (addMatchDecision_conflict_iff_matchID emptyStore "r1" "j1" "deal1" true).2.2.1 rfl⟩

/-- C9: each `UpdateDealTransactions…` variant, on a present deal, merges
exactly the non-empty fields of its argument into the matching transactions
sub-record (an empty-string field leaves the stored value unchanged, a
non-empty field overwrites it) and leaves the deal's id, parties, mediator,
state, collaterals and the other two transactions sub-records unchanged;
on an absent deal id each variant fails with NotFound and returns the store
unchanged. -/
theorem updateDealTransactions_merge (s : SolverStoreMemory) (id : String)
    (dRP : DealTransactionsResourceProvider) (dJC : DealTransactionsJobCreator)
    (dM : DealTransactionsMediator) :
    (s.dealMap id = none →
      UpdateDealTransactionsResourceProvider s id dRP = (.error (.notFound id), s) ∧
      UpdateDealTransactionsJobCreator s id dJC = (.error (.notFound id), s) ∧
      UpdateDealTransactionsMediator s id dM = (.error (.notFound id), s)) ∧
    (∀ deal deal2, s.dealMap id = some deal →
      (UpdateDealTransactionsResourceProvider s id dRP).1 = .ok deal2 →
      deal2.ID = deal.ID ∧ deal2.JobCreator = deal.JobCreator ∧
      deal2.ResourceProvider = deal.ResourceProvider ∧ deal2.Mediator = deal.Mediator ∧
      deal2.State = deal.State ∧ deal2.Collaterals = deal.Collaterals ∧
      deal2.Transactions.JobCreator = deal.Transactions.JobCreator ∧
      deal2.Transactions.Mediator = deal.Transactions.Mediator ∧
      (dRP.Agree = "" → deal2.Transactions.ResourceProvider.Agree =
        deal.Transactions.ResourceProvider.Agree) ∧
      (dRP.Agree ≠ "" → deal2.Transactions.ResourceProvider.Agree = dRP.Agree) ∧
      (dRP.AddResult = "" → deal2.Transactions.ResourceProvider.AddResult =
        deal.Transactions.ResourceProvider.AddResult) ∧
      (dRP.AddResult ≠ "" → deal2.Transactions.ResourceProvider.AddResult =
        dRP.AddResult) ∧
      (dRP.TimeoutAgree = "" → deal2.Transactions.ResourceProvider.TimeoutAgree =
        deal.Transactions.ResourceProvider.TimeoutAgree) ∧
      (dRP.TimeoutAgree ≠ "" → deal2.Transactions.ResourceProvider.TimeoutAgree =
        dRP.TimeoutAgree) ∧
      (dRP.TimeoutJudgeResult = "" →
        deal2.Transactions.ResourceProvider.TimeoutJudgeResult =
          deal.Transactions.ResourceProvider.TimeoutJudgeResult) ∧
      (dRP.TimeoutJudgeResult ≠ "" →
        deal2.Transactions.ResourceProvider.TimeoutJudgeResult =
          dRP.TimeoutJudgeResult) ∧
      (dRP.TimeoutMediateResult = "" →
        deal2.Transactions.ResourceProvider.TimeoutMediateResult =
          deal.Transactions.ResourceProvider.TimeoutMediateResult) ∧
      (dRP.TimeoutMediateResult ≠ "" →
        deal2.Transactions.ResourceProvider.TimeoutMediateResult =
          dRP.TimeoutMediateResult)) ∧
    (∀ deal deal2, s.dealMap id = some deal →
      (UpdateDealTransactionsJobCreator s id dJC).1 = .ok deal2 →
      deal2.ID = deal.ID ∧ deal2.JobCreator = deal.JobCreator ∧
      deal2.ResourceProvider = deal.ResourceProvider ∧ deal2.Mediator = deal.Mediator ∧
      deal2.State = deal.State ∧ deal2.Collaterals = deal.Collaterals ∧
      deal2.Transactions.ResourceProvider = deal.Transactions.ResourceProvider ∧
      deal2.Transactions.Mediator = deal.Transactions.Mediator ∧
      (dJC.Agree = "" → deal2.Transactions.JobCreator.Agree =
        deal.Transactions.JobCreator.Agree) ∧
      (dJC.Agree ≠ "" → deal2.Transactions.JobCreator.Agree = dJC.Agree) ∧
      (dJC.AcceptResult = "" → deal2.Transactions.JobCreator.AcceptResult =
        deal.Transactions.JobCreator.AcceptResult) ∧
      (dJC.AcceptResult ≠ "" → deal2.Transactions.JobCreator.AcceptResult =
        dJC.AcceptResult) ∧
      (dJC.CheckResult = "" → deal2.Transactions.JobCreator.CheckResult =
        deal.Transactions.JobCreator.CheckResult) ∧
      (dJC.CheckResult ≠ "" → deal2.Transactions.JobCreator.CheckResult =
        dJC.CheckResult) ∧
      (dJC.TimeoutAgree = "" → deal2.Transactions.JobCreator.TimeoutAgree =
        deal.Transactions.JobCreator.TimeoutAgree) ∧
      (dJC.TimeoutAgree ≠ "" → deal2.Transactions.JobCreator.TimeoutAgree =
        dJC.TimeoutAgree) ∧
      (dJC.TimeoutSubmitResult = "" →
        deal2.Transactions.JobCreator.TimeoutSubmitResult =
          deal.Transactions.JobCreator.TimeoutSubmitResult) ∧
      (dJC.TimeoutSubmitResult ≠ "" →
        deal2.Transactions.JobCreator.TimeoutSubmitResult =
          dJC.TimeoutSubmitResult) ∧
      (dJC.TimeoutMediateResult = "" →
        deal2.Transactions.JobCreator.TimeoutMediateResult =
          deal.Transactions.JobCreator.TimeoutMediateResult) ∧
      (dJC.TimeoutMediateResult ≠ "" →
        deal2.Transactions.JobCreator.TimeoutMediateResult =
          dJC.TimeoutMediateResult)) ∧
    (∀ deal deal2, s.dealMap id = some deal →
      (UpdateDealTransactionsMediator s id dM).1 = .ok deal2 →
      deal2.ID = deal.ID ∧ deal2.JobCreator = deal.JobCreator ∧
      deal2.ResourceProvider = deal.ResourceProvider ∧ deal2.Mediator = deal.Mediator ∧
      deal2.State = deal.State ∧ deal2.Collaterals = deal.Collaterals ∧
      deal2.Transactions.ResourceProvider = deal.Transactions.ResourceProvider ∧
      deal2.Transactions.JobCreator = deal.Transactions.JobCreator ∧
      (dM.MediationAcceptResult = "" →
        deal2.Transactions.Mediator.MediationAcceptResult =
          deal.Transactions.Mediator.MediationAcceptResult) ∧
      (dM.MediationAcceptResult ≠ "" →
        deal2.Transactions.Mediator.MediationAcceptResult =
          dM.MediationAcceptResult) ∧
      (dM.MediationRejectResult = "" →
        deal2.Transactions.Mediator.MediationRejectResult =
          deal.Transactions.Mediator.MediationRejectResult) ∧
      (dM.MediationRejectResult ≠ "" →
        deal2.Transactions.Mediator.MediationRejectResult =
          dM.MediationRejectResult)) := by
  refine ⟨?_, ?_, ?_, ?_⟩
  · intro h
    refine ⟨?_, ?_, ?_⟩ <;>
      simp [UpdateDealTransactionsResourceProvider, UpdateDealTransactionsJobCreator,
        UpdateDealTransactionsMediator, h]
  · intro deal deal2 hdeal hok
    simp only [UpdateDealTransactionsResourceProvider, hdeal, Except.ok.injEq] at hok
    subst hok
    refine ⟨rfl, rfl, rfl, rfl, rfl, rfl, rfl, rfl,
      ?_, ?_, ?_, ?_, ?_, ?_, ?_, ?_, ?_, ?_⟩ <;>
      (intro h; simp [mergeTransactionsResourceProvider, h])
  · intro deal deal2 hdeal hok
    simp only [UpdateDealTransactionsJobCreator, hdeal, Except.ok.injEq] at hok
    subst hok
    refine ⟨rfl, rfl, rfl, rfl, rfl, rfl, rfl, rfl,
      ?_, ?_, ?_, ?_, ?_, ?_, ?_, ?_, ?_, ?_, ?_, ?_⟩ <;>
      (intro h; simp [mergeTransactionsJobCreator, h])
  · intro deal deal2 hdeal hok
    simp only [UpdateDealTransactionsMediator, hdeal, Except.ok.injEq] at hok
    subst hok
    refine ⟨rfl, rfl, rfl, rfl, rfl, rfl, rfl, rfl, ?_, ?_, ?_, ?_⟩ <;>
      (intro h; simp [mergeTransactionsMediator, h])

/-- Witness for C9: in a store holding `dealExample`, an RP-transactions
update whose only non-empty field is `AddResult = "addTx"` leaves `Agree`
untouched, overwrites `AddResult`, and leaves the JC sub-record and the
state unchanged. -/
theorem updateDealTransactions_merge_witness :
    dealExampleMergedRP.Transactions.ResourceProvider.Agree =
      dealExample.Transactions.ResourceProvider.Agree ∧
    dealExampleMergedRP.Transactions.ResourceProvider.AddResult = "addTx" ∧
    dealExampleMergedRP.Transactions.JobCreator = dealExample.Transactions.JobCreator ∧
    dealExampleMergedRP.State = dealExample.State := by
  obtain ⟨h1, h2, h3, h4, h5, h6, h7, h8, h9, h10, h11, h12, h13, h14, h15, h16, h17, h18⟩ :=
    (updateDealTransactions_merge (AddDeal emptyStore dealExample).2 "d1"
      ⟨"", "addTx", "", "", ""⟩ ⟨"", "", "", "", "", ""⟩ ⟨"", ""⟩).2.1
      dealExample dealExampleMergedRP rfl rfl
  exact ⟨h9 rfl, h12 (by decide), h7, h5⟩

/-- C10: `UpdateJobOfferState` and `UpdateResourceOfferState`, on a present
offer, overwrite both the `DealID` and `State` fields unconditionally with
the given arguments — there is no empty-means-no-change rule here, so an
empty deal id clears a previously set one — and leave the offer's other
fields unchanged. -/
theorem updateOfferState_overwrites (s : SolverStoreMemory) (id dealID : String)
    (state : Nat) :
    (∀ jobOffer jobOffer2, s.jobOfferMap id = some jobOffer →
      (UpdateJobOfferState s id dealID state).1 = .ok jobOffer2 →
      jobOffer2.DealID = dealID ∧ jobOffer2.State = state ∧
      jobOffer2.ID = jobOffer.ID ∧ jobOffer2.JobCreator = jobOffer.JobCreator ∧
      jobOffer2.payload = jobOffer.payload) ∧
    (∀ resourceOffer resourceOffer2, s.resourceOfferMap id = some resourceOffer →
      (UpdateResourceOfferState s id dealID state).1 = .ok resourceOffer2 →
      resourceOffer2.DealID = dealID ∧ resourceOffer2.State = state ∧
      resourceOffer2.ID = resourceOffer.ID ∧
      resourceOffer2.ResourceProvider = resourceOffer.ResourceProvider ∧
      resourceOffer2.payload = resourceOffer.payload) := by
  constructor
  · intro jobOffer jobOffer2 hoffer hok
    simp only [UpdateJobOfferState, hoffer, Except.ok.injEq] at hok
    subst hok
    exact ⟨rfl, rfl, rfl, rfl, rfl⟩
  · intro resourceOffer resourceOffer2 hoffer hok
    simp only [UpdateResourceOfferState, hoffer, Except.ok.injEq] at hok
    subst hok
    exact ⟨rfl, rfl, rfl, rfl, rfl⟩

/-- Witness for C10: the matched offers `jobOfferExample` /
`resourceOfferExample` (deal id `"dOld"`) updated with the EMPTY deal id and
state 3 come out with their `DealID` cleared and `State` overwritten. -/
theorem updateOfferState_overwrites_witness :
    jobOfferExample.DealID = "dOld" ∧
    jobOfferExampleUpdated.DealID = "" ∧ jobOfferExampleUpdated.State = 3 ∧
    jobOfferExampleUpdated.ID = jobOfferExample.ID ∧
    resourceOfferExample.DealID = "dOld" ∧
    resourceOfferExampleUpdated.DealID = "" ∧ resourceOfferExampleUpdated.State = 3 := by
  have hjo := (updateOfferState_overwrites
    (AddJobOffer emptyStore jobOfferExample).2 "j1" "" 3).1
    jobOfferExample jobOfferExampleUpdated rfl rfl
  have hro := (updateOfferState_overwrites
    (AddResourceOffer emptyStore resourceOfferExample).2 "r1" "" 3).2
    resourceOfferExample resourceOfferExampleUpdated rfl rfl
  exact ⟨rfl, hjo.1, hjo.2.1, hjo.2.2.1, rfl, hro.1, hro.2.1⟩

end Lilypad
